import Mathlib

set_option maxRecDepth 1000000

/-!
Verification development for the superstore-insights backend
(`backend/app/services`): a shallow embedding of the filtering and
aggregation engine (`filters.py`, `analytics.py`), the schema validation
of ingestion (`repository.py`), and the repository cache state machine,
together with theorems settling the specification claims.

Modelling conventions:
* a pandas `DataFrame` of sales rows is a `List Record`;
* currency floats (`Sales`, `Profit`) are modelled as exact rationals
  (the spec's sample values are exact decimals);
* Python `round(x, 2)` is modelled as round-half-to-even to 2 decimals
  (`round2`);
* fallible Python code (raising) is modelled with `Except` / `Option`;
* `pd.to_datetime` on a filter bound string is modelled by `parseDate`
  on the documented `YYYY-MM-DD` format, returning `none` where pandas
  would raise a parse error.
-/

/-- A calendar date (year, month, day), the model of a `pd.Timestamp`
stored in the `Order Date` / `Ship Date` columns. -/
structure Date where
  year : Nat
  month : Nat
  day : Nat
deriving DecidableEq, Repr

/-- Lexicographic order on dates, the model of comparing two
`pd.Timestamp` values. -/
def Date.leb (a b : Date) : Bool :=
  if a.year ≠ b.year then decide (a.year < b.year)
  else if a.month ≠ b.month then decide (a.month < b.month)
  else decide (a.day ≤ b.day)

/-- One row of the Superstore dataset: the columns the services read. -/
structure Record where
  order_id : String
  customer_id : String
  order_date : Date
  ship_date : Date
  segment : String
  region : String
  state : String
  category : String
  sub_category : String
  sales : ℚ
  profit : ℚ
  quantity : Int
deriving DecidableEq, Repr

/-- `series.sum()` for a rational-valued column selected by `f`. -/
def sumQ (df : List Record) (f : Record → ℚ) : ℚ :=
  (df.map f).sum

/-- `series.sum()` for an integer-valued column selected by `f`. -/
def sumZ (df : List Record) (f : Record → Int) : Int :=
  (df.map f).sum

/-- `series.nunique()`: the number of distinct values of the column
selected by `f`. -/
def nuniq (df : List Record) (f : Record → String) : Nat :=
  ((df.map f).dedup).length

/-- Floor of a rational as an integer (denominators are positive, so
`Int.fdiv` is the mathematical floor). -/
def qfloor (q : ℚ) : ℤ :=
  q.num.fdiv q.den

/-- Round a rational to the nearest integer, ties to even: the model of
Python's banker's rounding. -/
def roundHalfEven (q : ℚ) : ℤ :=
  let f := qfloor q
  let frac := q - (f : ℚ)
  if frac < 1/2 then f
  else if 1/2 < frac then f + 1
  else if f % 2 = 0 then f else f + 1

/-- Python `round(x, 2)`. -/
def round2 (q : ℚ) : ℚ :=
  (roundHalfEven (q * 100) : ℚ) / 100

/-- Lexicographic order on character lists (Python string comparison by
code point). -/
def lexLe : List Char → List Char → Bool
  | [], _ => true
  | _ :: _, [] => false
  | c :: cs, d :: ds => if c = d then lexLe cs ds else decide (c < d)

/-- `a <= b` for strings, as used by Python `sorted`. -/
def strLeb (a b : String) : Bool :=
  lexLe a.toList b.toList

/-- Insert into a list sorted by `le` (helper of `sortLe`). -/
def insertLe (le : α → α → Bool) (x : α) : List α → List α
  | [] => [x]
  | y :: ys => if le x y then x :: y :: ys else y :: insertLe le x ys

/-- Insertion sort by `le`: the model of Python `sorted` and of pandas
sorting group keys ascending. -/
def sortLe (le : α → α → Bool) : List α → List α
  | [] => []
  | x :: xs => insertLe le x (sortLe le xs)

/-- Accumulate decimal digits into a number; `none` on a non-digit
(helper of `digitsVal`). -/
def digitsValGo : List Char → Nat → Option Nat
  | [], acc => some acc
  | c :: cs, acc =>
    if c.isDigit then digitsValGo cs (acc * 10 + (c.toNat - 48)) else none

/-- Digits of a decimal number, as a number; `none` if the character
list is empty or contains a non-digit. -/
def digitsVal : List Char → Option Nat
  | [] => none
  | cs => digitsValGo cs 0

/-- Split a character list on the dash character. -/
def splitDashAux : List Char → List Char → List (List Char)
  | [], cur => [cur.reverse]
  | c :: cs, cur =>
    if c = '-' then cur.reverse :: splitDashAux cs [] else splitDashAux cs (c :: cur)

/-- Days in a month of the Gregorian calendar, February depending on
the leap-year rule (divisible by 4, except centuries not divisible by
400). -/
def daysInMonth (y m : Nat) : Nat :=
  if m = 2 then
    if y % 4 = 0 ∧ (y % 100 ≠ 0 ∨ y % 400 = 0) then 29 else 28
  else if m = 4 ∨ m = 6 ∨ m = 9 ∨ m = 11 then 30
  else 31

/-- The earliest calendar date whose midnight timestamp is
representable as a `pd.Timestamp` (`Timestamp.min` is
1677-09-21 00:12:43, so 1677-09-21 itself is already out of bounds for
a date-only string). -/
def minTimestampDate : Date := ⟨1677, 9, 22⟩

/-- The latest calendar date whose midnight timestamp is representable
as a `pd.Timestamp` (`Timestamp.max` is 2262-04-11 23:47:16). -/
def maxTimestampDate : Date := ⟨2262, 4, 11⟩

/-- Model of `pd.to_datetime` applied to a filter bound string, on the
documented `YYYY-MM-DD` input format (`filters.py` docstring): `none`
models the exception pandas raises — the parse error on a malformed or
calendar-invalid date string (e.g. a day out of range for its month)
and the out-of-bounds error on a date outside the `pd.Timestamp`
range. Alternate spellings pandas may resolve (e.g. two-digit years)
are modelled conservatively as errors; they appear only in hypotheses,
never as modelled successes. -/
def parseDate (s : String) : Option Date :=
  match splitDashAux s.toList [] with
  | [ys, ms, ds] =>
    match digitsVal ys, digitsVal ms, digitsVal ds with
    | some y, some m, some d =>
      let dt : Date := ⟨y, m, d⟩
      if 1 ≤ m ∧ m ≤ 12 ∧ 1 ≤ d ∧ d ≤ daysInMonth y m
          ∧ Date.leb minTimestampDate dt = true
          ∧ Date.leb dt maxTimestampDate = true
      then some dt else none
    | _, _, _ => none
  | _ => none

/-- The optional filter parameters of `apply_filters` (the spec's
`FilterSpec`): `none` models a Python `None` argument. -/
structure FilterSpec where
  start_date : Option String := none
  end_date : Option String := none
  regions : Option (List String) := none
  segments : Option (List String) := none
  categories : Option (List String) := none
deriving DecidableEq, Repr

/-- `if start_date:` — the date-bound truthiness filter stage of
`apply_filters`: skipped for `None` and for the empty string, otherwise
the bound is parsed (raising on a malformed string, modelled as
`.error`) and rows with `Order Date >= bound` are kept. -/
def filterStart (df : List Record) (start_date : Option String) :
    Except String (List Record) :=
  match start_date with
  | none => .ok df
  | some s =>
    if s = "" then .ok df
    else
      match parseDate s with
      | some d => .ok (df.filter fun r => Date.leb d r.order_date)
      | none => .error ("Unknown datetime string format: " ++ s)

/-- `if end_date:` — as `filterStart`, keeping rows with
`Order Date <= bound`. -/
def filterEnd (df : List Record) (end_date : Option String) :
    Except String (List Record) :=
  match end_date with
  | none => .ok df
  | some s =>
    if s = "" then .ok df
    else
      match parseDate s with
      | some d => .ok (df.filter fun r => Date.leb r.order_date d)
      | none => .error ("Unknown datetime string format: " ++ s)

/-- `if regions: filtered = filtered[filtered["Region"].isin(regions)]`. -/
def filterRegions (df : List Record) (regions : Option (List String)) :
    List Record :=
  match regions with
  | none => df
  | some l => if l = [] then df else df.filter fun r => l.contains r.region

/-- `if segments: ...isin(segments)`. -/
def filterSegments (df : List Record) (segments : Option (List String)) :
    List Record :=
  match segments with
  | none => df
  | some l => if l = [] then df else df.filter fun r => l.contains r.segment

/-- `if categories: ...isin(categories)`. -/
def filterCategories (df : List Record) (categories : Option (List String)) :
    List Record :=
  match categories with
  | none => df
  | some l => if l = [] then df else df.filter fun r => l.contains r.category

/-- `apply_filters` from `backend/app/services/filters.py` (identical to
`DataService._apply_filters`): the five filter stages applied in source
order; `.error` models the exception `pd.to_datetime` raises on a
malformed non-empty date bound. -/
def apply_filters (df : List Record) (spec : FilterSpec) :
    Except String (List Record) :=
  match filterStart df spec.start_date with
  | .error e => .error e
  | .ok f1 =>
    match filterEnd f1 spec.end_date with
    | .error e => .error e
    | .ok f2 =>
      .ok (filterCategories
            (filterSegments (filterRegions f2 spec.regions) spec.segments)
            spec.categories)

/-- The result record of `compute_overview_metrics`. -/
structure Overview where
  total_sales : ℚ
  total_profit : ℚ
  total_orders : Nat
  total_customers : Nat
  avg_order_value : ℚ
  profit_margin : ℚ
deriving DecidableEq, Repr

/-- `compute_overview_metrics` from `analytics.py` (identical to
`DataService.get_overview_metrics` after filtering): totals, distinct
counts, and the two guarded ratios, both guarded by a strict `> 0`
test in the source. -/
def compute_overview_metrics (df : List Record) : Overview :=
  let total_sales := sumQ df (fun r => r.sales)
  let total_profit := sumQ df (fun r => r.profit)
  let unique_orders := nuniq df (fun r => r.order_id)
  { total_sales := round2 total_sales
    total_profit := round2 total_profit
    total_orders := unique_orders
    total_customers := nuniq df (fun r => r.customer_id)
    avg_order_value :=
      if 0 < unique_orders then round2 (total_sales / (unique_orders : ℚ)) else 0
    profit_margin :=
      if 0 < total_sales then round2 (total_profit / total_sales * 100) else 0 }

/-- The group keys of `df.groupby(column)`: the distinct values of the
column, sorted ascending (pandas sorts group keys by default). -/
def groupKeys (df : List Record) (key : Record → String) : List String :=
  sortLe strLeb ((df.map key).dedup)

/-- One output row of `compute_sales_by_category`. -/
structure CategoryRow where
  category : String
  sales : ℚ
  profit : ℚ
  quantity : Int
  orders : Nat
deriving DecidableEq, Repr

/-- `compute_sales_by_category` from `analytics.py`: group by
`Category`, sum sales/profit/quantity, count distinct order ids, round
sales and profit to 2 decimals. -/
def compute_sales_by_category (df : List Record) : List CategoryRow :=
  (groupKeys df (fun r => r.category)).map fun c =>
    let g := df.filter fun r => r.category == c
    { category := c
      sales := round2 (sumQ g (fun r => r.sales))
      profit := round2 (sumQ g (fun r => r.profit))
      quantity := sumZ g (fun r => r.quantity)
      orders := nuniq g (fun r => r.order_id) }

/-- One output row of `compute_sales_by_region`. -/
structure RegionRow where
  region : String
  sales : ℚ
  profit : ℚ
  quantity : Int
  orders : Nat
deriving DecidableEq, Repr

/-- `compute_sales_by_region` from `analytics.py`. -/
def compute_sales_by_region (df : List Record) : List RegionRow :=
  (groupKeys df (fun r => r.region)).map fun c =>
    let g := df.filter fun r => r.region == c
    { region := c
      sales := round2 (sumQ g (fun r => r.sales))
      profit := round2 (sumQ g (fun r => r.profit))
      quantity := sumZ g (fun r => r.quantity)
      orders := nuniq g (fun r => r.order_id) }

/-- Left-pad the decimal representation of `n` with zeros to width 2. -/
def pad2 (n : Nat) : String :=
  if n < 10 then "0" ++ toString n else toString n

/-- Left-pad the decimal representation of `n` with zeros to width 4. -/
def pad4 (n : Nat) : String :=
  if n < 10 then "000" ++ toString n
  else if n < 100 then "00" ++ toString n
  else if n < 1000 then "0" ++ toString n
  else toString n

/-- `str(period)` for a monthly period: the "YYYY-MM" key of
`compute_sales_trends`. -/
def formatMonth (ym : Nat × Nat) : String :=
  pad4 ym.1 ++ "-" ++ pad2 ym.2

/-- `date.strftime("%Y-%m-%d")`. -/
def formatDate (d : Date) : String :=
  pad4 d.year ++ "-" ++ pad2 d.month ++ "-" ++ pad2 d.day

/-- `a <= b` on (year, month) period keys. -/
def monthLeb (a b : Nat × Nat) : Bool :=
  if a.1 = b.1 then decide (a.2 ≤ b.2) else decide (a.1 < b.1)

/-- One output row of `compute_sales_trends`. -/
structure TrendRow where
  month : String
  sales : ℚ
  profit : ℚ
  orders : Nat
deriving DecidableEq, Repr

/-- `compute_sales_trends` from `analytics.py`: group by the monthly
period of `Order Date` (keys ascending), sum sales/profit, count
distinct order ids. -/
def compute_sales_trends (df : List Record) : List TrendRow :=
  (sortLe monthLeb ((df.map fun r => (r.order_date.year, r.order_date.month)).dedup)).map
    fun ym =>
      let g := df.filter fun r => (r.order_date.year, r.order_date.month) == ym
      { month := formatMonth ym
        sales := round2 (sumQ g (fun r => r.sales))
        profit := round2 (sumQ g (fun r => r.profit))
        orders := nuniq g (fun r => r.order_id) }

/-- `a <= b` on (category, sub-category) group keys, lexicographic. -/
def strPairLeb (a b : String × String) : Bool :=
  if a.1 = b.1 then strLeb a.2 b.2
  else strLeb a.1 b.1

/-- One output row of `compute_profit_analysis`. -/
structure ProfitRow where
  category : String
  sub_category : String
  sales : ℚ
  profit : ℚ
  quantity : Int
  profit_margin : ℚ
deriving DecidableEq, Repr

/-- `compute_profit_analysis` from `analytics.py`: group by
(`Category`, `Sub-Category`), sum sales/profit/quantity, and compute
the per-group margin guarded by `sales != 0` (note: unlike the
overview, the guard here is inequality, not `> 0`). -/
def compute_profit_analysis (df : List Record) : List ProfitRow :=
  (sortLe strPairLeb ((df.map fun r => (r.category, r.sub_category)).dedup)).map
    fun k =>
      let g := df.filter fun r => (r.category, r.sub_category) == k
      let sales := sumQ g (fun r => r.sales)
      let profit := sumQ g (fun r => r.profit)
      { category := k.1
        sub_category := k.2
        sales := round2 sales
        profit := round2 profit
        quantity := sumZ g (fun r => r.quantity)
        profit_margin := if sales ≠ 0 then round2 (profit / sales * 100) else 0 }

/-- One output row of `compute_segment_analysis`. -/
structure SegmentRow where
  segment : String
  sales : ℚ
  profit : ℚ
  customers : Nat
  orders : Nat
deriving DecidableEq, Repr

/-- `compute_segment_analysis` from `analytics.py`. -/
def compute_segment_analysis (df : List Record) : List SegmentRow :=
  (groupKeys df (fun r => r.segment)).map fun c =>
    let g := df.filter fun r => r.segment == c
    { segment := c
      sales := round2 (sumQ g (fun r => r.sales))
      profit := round2 (sumQ g (fun r => r.profit))
      customers := nuniq g (fun r => r.customer_id)
      orders := nuniq g (fun r => r.order_id) }

/-- `df["Order Date"].min()`: `none` is pandas `NaT` on an empty
column. -/
def dateMin : List Record → Option Date
  | [] => none
  | r :: rs =>
    some (rs.foldl (fun acc x => if Date.leb x.order_date acc then x.order_date else acc)
      r.order_date)

/-- `df["Order Date"].max()`: `none` is pandas `NaT` on an empty
column. -/
def dateMax : List Record → Option Date
  | [] => none
  | r :: rs =>
    some (rs.foldl (fun acc x => if Date.leb acc x.order_date then x.order_date else acc)
      r.order_date)

/-- The `date_range` sub-record of the filter options. -/
structure DateRange where
  min : String
  max : String
deriving DecidableEq, Repr

/-- The result record of `compute_filter_options`. -/
structure FilterOptions where
  regions : List String
  segments : List String
  categories : List String
  date_range : DateRange
deriving DecidableEq, Repr

/-- `compute_filter_options` from `analytics.py` (identical to
`DataService.get_filter_options`): distinct sorted dimension values
plus the formatted min/max order date. `none` models the `ValueError`
that `NaT.strftime` raises when the table is empty (an empty column's
`min()`/`max()` is `NaT`). -/
def compute_filter_options (df : List Record) : Option FilterOptions :=
  match dateMin df, dateMax df with
  | some lo, some hi =>
    some { regions := sortLe strLeb ((df.map fun r => r.region).dedup)
           segments := sortLe strLeb ((df.map fun r => r.segment).dedup)
           categories := sortLe strLeb ((df.map fun r => r.category).dedup)
           date_range := { min := formatDate lo, max := formatDate hi } }
  | _, _ => none

/-- The fixed state-name → postal-code lookup of `compute_state_sales`
(50 states plus the District of Columbia). -/
def state_abbrev : List (String × String) :=
  [("Alabama", "AL"), ("Alaska", "AK"), ("Arizona", "AZ"), ("Arkansas", "AR"),
   ("California", "CA"), ("Colorado", "CO"), ("Connecticut", "CT"), ("Delaware", "DE"),
   ("Florida", "FL"), ("Georgia", "GA"), ("Hawaii", "HI"), ("Idaho", "ID"),
   ("Illinois", "IL"), ("Indiana", "IN"), ("Iowa", "IA"), ("Kansas", "KS"),
   ("Kentucky", "KY"), ("Louisiana", "LA"), ("Maine", "ME"), ("Maryland", "MD"),
   ("Massachusetts", "MA"), ("Michigan", "MI"), ("Minnesota", "MN"), ("Mississippi", "MS"),
   ("Missouri", "MO"), ("Montana", "MT"), ("Nebraska", "NE"), ("Nevada", "NV"),
   ("New Hampshire", "NH"), ("New Jersey", "NJ"), ("New Mexico", "NM"), ("New York", "NY"),
   ("North Carolina", "NC"), ("North Dakota", "ND"), ("Ohio", "OH"), ("Oklahoma", "OK"),
   ("Oregon", "OR"), ("Pennsylvania", "PA"), ("Rhode Island", "RI"), ("South Carolina", "SC"),
   ("South Dakota", "SD"), ("Tennessee", "TN"), ("Texas", "TX"), ("Utah", "UT"),
   ("Vermont", "VT"), ("Virginia", "VA"), ("Washington", "WA"), ("West Virginia", "WV"),
   ("Wisconsin", "WI"), ("Wyoming", "WY"), ("District of Columbia", "DC")]

/-- One output row of `compute_state_sales`. -/
structure StateRow where
  state : String
  state_code : String
  sales : ℚ
  profit : ℚ
  orders : Nat
deriving DecidableEq, Repr

/-- `compute_state_sales` from `analytics.py`: group by `State`, look
the state name up in `state_abbrev` with default `""`
(`state_abbrev.get(state_name, "")`), and keep the group only when the
code is non-empty (`if state_code:`) — unmapped states are silently
dropped. -/
def compute_state_sales (df : List Record) : List StateRow :=
  (groupKeys df (fun r => r.state)).filterMap fun s =>
    let g := df.filter fun r => r.state == s
    let state_code := (state_abbrev.lookup s).getD ""
    if state_code ≠ "" then
      some { state := s
             state_code := state_code
             sales := round2 (sumQ g (fun r => r.sales))
             profit := round2 (sumQ g (fun r => r.profit))
             orders := nuniq g (fun r => r.order_id) }
    else none

/-- `DataRepository.REQUIRED_COLUMNS`: the 14 columns ingestion
validates. -/
def REQUIRED_COLUMNS : List String :=
  ["Order Date", "Ship Date", "Sales", "Profit", "Quantity",
   "Discount", "Order ID", "Customer ID", "Customer Name",
   "Segment", "Region", "Category", "Sub-Category", "Product Name"]

/-- `[c for c in self.REQUIRED_COLUMNS if c not in df.columns]` — the
missing-column list of `DataRepository._validate_schema`. -/
def missingColumns (cols : List String) : List String :=
  REQUIRED_COLUMNS.filter fun c => !(cols.contains c)

/-- The message of the `ValueError` raised by `_validate_schema`,
re-raised by `_load` as `DataValidationError(str(e))`: it renders the
missing-column list verbatim. -/
def renderMissing (missing : List String) : String :=
  "Missing required columns: [" ++ String.intercalate ", " missing ++ "]"

/-- `DataRepository._validate_schema` applied to a payload with columns
`cols` and wrapped by `_load` into `DataValidationError`: `.error msg`
models raising `DataValidationError(msg)`. -/
def validate_schema (cols : List String) : Except String Unit :=
  if missingColumns cols = [] then .ok ()
  else .error (renderMissing (missingColumns cols))

/-- The mutable state of `DataRepository`: the cached dataframe and the
last-refresh timestamp (an abstract clock value). -/
structure RepoState where
  df : Option (List Record)
  last_refresh : Option Nat
deriving DecidableEq, Repr

/-- `DataRepository.get_dataframe(force_refresh=...)` as a state
transition: `load` is the outcome of `self._load()` (an `.error` models
the ingestion exception propagating), `now` the current clock. On a
load exception the assignments to `_df` / `_last_refresh` never
execute, so the state is returned unchanged. -/
def get_dataframe (load : Except String (List Record)) (force_refresh : Bool)
    (st : RepoState) (now : Nat) : Except String (List Record) × RepoState :=
  if force_refresh || st.df.isNone then
    match load with
    | .ok d => (.ok d, { df := some d, last_refresh := some now })
    | .error e => (.error e, st)
  else
    (.ok (st.df.getD []), st)

deriving instance DecidableEq for Except

/-- `Except.isOk`, kept local. -/
def exceptIsOk : Except ε α → Bool
  | .ok _ => true
  | .error _ => false

/-- The date bound a truthy, parseable filter argument contributes:
`none` when the argument is absent or the empty string (the stage is
skipped), otherwise the parsed date (also `none` on a parse failure,
which in `apply_filters` is an error, not a bound). -/
def parseBound (os : Option String) : Option Date :=
  match os with
  | none => none
  | some s => if s = "" then none else parseDate s

/-- A date-bound argument on which `apply_filters` cannot raise:
absent, empty, or parseable. -/
def okBound (os : Option String) : Bool :=
  match os with
  | none => true
  | some s => (s = "") || (parseDate s).isSome

/-- Spec wording (§4.2): the record's order date is on or after the
start bound, when one is present. -/
def passesStart (b : Option Date) (r : Record) : Bool :=
  match b with
  | some d => Date.leb d r.order_date
  | none => true

/-- Spec wording (§4.2): the record's order date is on or before the
end bound, when one is present. -/
def passesEnd (b : Option Date) (r : Record) : Bool :=
  match b with
  | some d => Date.leb r.order_date d
  | none => true

/-- Spec wording (§4.2): the dimension value is a member of a
non-empty inclusion set; an empty or absent set passes
unconditionally. -/
def passesSet (s : Option (List String)) (v : String) : Bool :=
  match s with
  | some l => if l = [] then true else l.contains v
  | none => true

/-- Row 1 of the 5-row sample table (`tests/conftest.py`). -/
def sampleRow1 : Record :=
  { order_id := "ORD-001", customer_id := "CUST-001"
    order_date := ⟨2023, 1, 15⟩, ship_date := ⟨2023, 1, 20⟩
    segment := "Consumer", region := "East", state := "New York"
    category := "Technology", sub_category := "Phones"
    sales := 500, profit := 100, quantity := 1 }

/-- Row 2 of the sample table. -/
def sampleRow2 : Record :=
  { order_id := "ORD-001", customer_id := "CUST-001"
    order_date := ⟨2023, 1, 15⟩, ship_date := ⟨2023, 1, 20⟩
    segment := "Consumer", region := "East", state := "New York"
    category := "Office Supplies", sub_category := "Paper"
    sales := 50, profit := 10, quantity := 5 }

/-- Row 3 of the sample table. -/
def sampleRow3 : Record :=
  { order_id := "ORD-002", customer_id := "CUST-002"
    order_date := ⟨2023, 2, 20⟩, ship_date := ⟨2023, 2, 25⟩
    segment := "Corporate", region := "West", state := "California"
    category := "Furniture", sub_category := "Chairs"
    sales := 300, profit := -20, quantity := 1 }

/-- Row 4 of the sample table. -/
def sampleRow4 : Record :=
  { order_id := "ORD-003", customer_id := "CUST-003"
    order_date := ⟨2023, 3, 10⟩, ship_date := ⟨2023, 3, 15⟩
    segment := "Home Office", region := "Central", state := "Illinois"
    category := "Technology", sub_category := "Computers"
    sales := 1000, profit := 200, quantity := 1 }

/-- Row 5 of the sample table. -/
def sampleRow5 : Record :=
  { order_id := "ORD-003", customer_id := "CUST-003"
    order_date := ⟨2023, 3, 10⟩, ship_date := ⟨2023, 3, 15⟩
    segment := "Home Office", region := "Central", state := "Illinois"
    category := "Office Supplies", sub_category := "Binders"
    sales := 25, profit := 5, quantity := 10 }

/-- The 5-row sample table of the spec's concrete scenarios: sales
[500, 50, 300, 1000, 25], profit [100, 10, -20, 200, 5], 3 distinct
orders, 3 distinct customers. -/
def sampleTable : List Record :=
  [sampleRow1, sampleRow2, sampleRow3, sampleRow4, sampleRow5]

/-- A one-row table whose summed sales are negative. -/
def negSalesTable : List Record :=
  [{ order_id := "O1", customer_id := "C1"
     order_date := ⟨2023, 1, 1⟩, ship_date := ⟨2023, 1, 2⟩
     segment := "Consumer", region := "East", state := "New York"
     category := "Technology", sub_category := "Phones"
     sales := -100, profit := 50, quantity := 1 }]

/-- A one-row table whose summed sales are zero. -/
def zeroSalesTable : List Record :=
  [{ order_id := "O1", customer_id := "C1"
     order_date := ⟨2023, 1, 1⟩, ship_date := ⟨2023, 1, 2⟩
     segment := "Consumer", region := "East", state := "New York"
     category := "Technology", sub_category := "Phones"
     sales := 0, profit := 0, quantity := 1 }]

/-- A two-row, two-category table with per-category sales 0.004: each
group rounds to 0.00 while the total 0.008 rounds to 0.01. -/
def tinyRoundTable : List Record :=
  [{ order_id := "O1", customer_id := "C1"
     order_date := ⟨2023, 1, 1⟩, ship_date := ⟨2023, 1, 2⟩
     segment := "Consumer", region := "East", state := "New York"
     category := "Furniture", sub_category := "Chairs"
     sales := 1/250, profit := 0, quantity := 1 },
   { order_id := "O2", customer_id := "C2"
     order_date := ⟨2023, 1, 1⟩, ship_date := ⟨2023, 1, 2⟩
     segment := "Consumer", region := "East", state := "New York"
     category := "Technology", sub_category := "Phones"
     sales := 1/250, profit := 0, quantity := 1 }]

/-- A table with one state inside the lookup ("California") and one
outside it ("Ontario"). -/
def ontarioTable : List Record :=
  [{ order_id := "O1", customer_id := "C1"
     order_date := ⟨2023, 1, 1⟩, ship_date := ⟨2023, 1, 2⟩
     segment := "Consumer", region := "West", state := "California"
     category := "Technology", sub_category := "Phones"
     sales := 10, profit := 1, quantity := 1 },
   { order_id := "O2", customer_id := "C2"
     order_date := ⟨2023, 1, 1⟩, ship_date := ⟨2023, 1, 2⟩
     segment := "Consumer", region := "East", state := "Ontario"
     category := "Technology", sub_category := "Phones"
     sales := 20, profit := 2, quantity := 1 }]

/-- The sample-table column list with `"Profit"` removed (the payload
of the spec's missing-column scenario). -/
def columnsNoProfit : List String :=
  ["Row ID", "Order ID", "Order Date", "Ship Date", "Ship Mode",
   "Customer ID", "Customer Name", "Segment", "Country", "City",
   "State", "Postal Code", "Region", "Product ID", "Category",
   "Sub-Category", "Product Name", "Sales", "Quantity", "Discount"]

/-- The single output row of `compute_state_sales` on `ontarioTable`. -/
def californiaRow : StateRow :=
  { state := "California", state_code := "CA", sales := 10, profit := 1, orders := 1 }

theorem insertLe_perm (le : α → α → Bool) (x : α) (l : List α) :
    List.Perm (insertLe le x l) (x :: l) := by
  induction l with
  | nil => exact List.Perm.refl _
  | cons y ys ih =>
    by_cases h : le x y
    · simp [insertLe, h]
    · simp only [insertLe, h, if_false, Bool.false_eq_true]
      exact (ih.cons y).trans (List.Perm.swap x y ys)

theorem sortLe_perm (le : α → α → Bool) (l : List α) : List.Perm (sortLe le l) l := by
  induction l with
  | nil => exact List.Perm.refl _
  | cons x xs ih => exact (insertLe_perm le x (sortLe le xs)).trans (ih.cons x)

theorem mem_sortLe (le : α → α → Bool) (l : List α) (a : α) :
    a ∈ sortLe le l ↔ a ∈ l :=
  (sortLe_perm le l).mem_iff

theorem nodup_sortLe (le : α → α → Bool) (l : List α) (h : l.Nodup) :
    (sortLe le l).Nodup :=
  (sortLe_perm le l).nodup_iff.mpr h

theorem groupKeys_nodup (df : List Record) (key : Record → String) :
    (groupKeys df key).Nodup :=
  nodup_sortLe _ _ (List.nodup_dedup _)

theorem mem_groupKeys (df : List Record) (key : Record → String)
    (r : Record) (hr : r ∈ df) : key r ∈ groupKeys df key :=
  (mem_sortLe _ _ _).mpr (List.mem_dedup.mpr (List.mem_map_of_mem key hr))

theorem sum_map_add_distrib {M : Type} [AddCommMonoid M] (l : List α) (f g : α → M) :
    (l.map fun a => f a + g a).sum = (l.map f).sum + (l.map g).sum := by
  induction l with
  | nil => simp
  | cons x xs ih =>
    simp only [List.map_cons, List.sum_cons, ih]
    exact add_add_add_comm (f x) (g x) (xs.map f).sum (xs.map g).sum

theorem sum_map_ite_of_notMem {M : Type} [AddCommMonoid M] (K : List String)
    (a : String) (h : a ∉ K) (x : M) :
    (K.map fun c => if a = c then x else 0).sum = 0 := by
  induction K with
  | nil => simp
  | cons c K ih =>
    have h1 : ¬(a = c) := fun e => h (by simp [e])
    have h2 : a ∉ K := fun hm => h (List.mem_cons_of_mem _ hm)
    simp [h1, ih h2]

theorem sum_map_ite_of_nodup {M : Type} [AddCommMonoid M] (K : List String)
    (hnd : K.Nodup) (a : String) (ha : a ∈ K) (x : M) :
    (K.map fun c => if a = c then x else 0).sum = x := by
  induction K with
  | nil => cases ha
  | cons c K ih =>
    rcases List.mem_cons.mp ha with h | h
    · subst h
      have hn : a ∉ K := (List.nodup_cons.mp hnd).1
      simp [sum_map_ite_of_notMem K a hn x]
    · have h1 : ¬(a = c) := by
        rintro rfl
        exact (List.nodup_cons.mp hnd).1 h
      simp only [List.map_cons, List.sum_cons, h1, if_false]
      rw [zero_add]
      exact ih (List.nodup_cons.mp hnd).2 h

theorem sum_filter_partition {M : Type} [AddCommMonoid M] (key : Record → String)
    (f : Record → M) (K : List String) (hnd : K.Nodup) (T : List Record)
    (hmem : ∀ r ∈ T, key r ∈ K) :
    (K.map fun c => ((T.filter fun r => key r == c).map f).sum).sum = (T.map f).sum := by
  induction T with
  | nil => simp
  | cons r T ih =>
    have hr : key r ∈ K := hmem r (by simp)
    have hT : ∀ x ∈ T, key x ∈ K := fun x hx => hmem x (List.mem_cons_of_mem _ hx)
    have step : ∀ c, ((List.filter (fun x => key x == c) (r :: T)).map f).sum
        = (if key r = c then f r else 0)
          + ((T.filter fun x => key x == c).map f).sum := by
      intro c
      by_cases h : key r = c
      · simp [List.filter_cons, h]
      · simp [List.filter_cons, h]
    simp only [step]
    rw [sum_map_add_distrib, sum_map_ite_of_nodup K hnd (key r) hr (f r), ih hT]
    simp

theorem length_eq_sum_map_one (l : List α) :
    l.length = (l.map fun _ => (1 : ℕ)).sum := by
  induction l with
  | nil => rfl
  | cons x xs ih =>
    simp only [List.length_cons, List.map_cons, List.sum_cons, ih]
    omega

theorem mem_filterStart (df out : List Record) (sd : Option String)
    (h : filterStart df sd = .ok out) (r : Record) :
    r ∈ out ↔ r ∈ df ∧ passesStart (parseBound sd) r = true := by
  cases sd with
  | none =>
    simp only [filterStart, Except.ok.injEq] at h
    subst h
    simp [passesStart, parseBound]
  | some s =>
    by_cases hs : s = ""
    · simp only [filterStart, hs, if_true, Except.ok.injEq] at h
      subst h
      simp [passesStart, parseBound, hs]
    · cases hp : parseDate s with
      | none => simp [filterStart, hs, hp] at h
      | some d =>
        simp only [filterStart, hs, if_false, hp, Except.ok.injEq] at h
        subst h
        simp [passesStart, parseBound, hs, hp, List.mem_filter]

theorem mem_filterEnd (df out : List Record) (ed : Option String)
    (h : filterEnd df ed = .ok out) (r : Record) :
    r ∈ out ↔ r ∈ df ∧ passesEnd (parseBound ed) r = true := by
  cases ed with
  | none =>
    simp only [filterEnd, Except.ok.injEq] at h
    subst h
    simp [passesEnd, parseBound]
  | some s =>
    by_cases hs : s = ""
    · simp only [filterEnd, hs, if_true, Except.ok.injEq] at h
      subst h
      simp [passesEnd, parseBound, hs]
    · cases hp : parseDate s with
      | none => simp [filterEnd, hs, hp] at h
      | some d =>
        simp only [filterEnd, hs, if_false, hp, Except.ok.injEq] at h
        subst h
        simp [passesEnd, parseBound, hs, hp, List.mem_filter]

theorem mem_filterRegions (df : List Record) (regions : Option (List String))
    (r : Record) :
    r ∈ filterRegions df regions ↔ r ∈ df ∧ passesSet regions r.region = true := by
  cases regions with
  | none => simp [filterRegions, passesSet]
  | some l =>
    by_cases h : l = [] <;> simp [filterRegions, passesSet, h, List.mem_filter]

theorem mem_filterSegments (df : List Record) (segments : Option (List String))
    (r : Record) :
    r ∈ filterSegments df segments ↔ r ∈ df ∧ passesSet segments r.segment = true := by
  cases segments with
  | none => simp [filterSegments, passesSet]
  | some l =>
    by_cases h : l = [] <;> simp [filterSegments, passesSet, h, List.mem_filter]

theorem mem_filterCategories (df : List Record) (categories : Option (List String))
    (r : Record) :
    r ∈ filterCategories df categories ↔ r ∈ df ∧ passesSet categories r.category = true := by
  cases categories with
  | none => simp [filterCategories, passesSet]
  | some l =>
    by_cases h : l = [] <;> simp [filterCategories, passesSet, h, List.mem_filter]

theorem filterStart_ok (df : List Record) (sd : Option String)
    (h : okBound sd = true) : ∃ g, filterStart df sd = .ok g := by
  cases sd with
  | none => exact ⟨df, rfl⟩
  | some s =>
    by_cases hs : s = ""
    · exact ⟨df, by simp [filterStart, hs]⟩
    · simp only [okBound, hs, Bool.false_or, decide_eq_true_eq] at h
      cases hp : parseDate s with
      | none => rw [hp] at h; cases h
      | some d =>
        exact ⟨df.filter fun r => Date.leb d r.order_date, by simp [filterStart, hs, hp]⟩

theorem filterEnd_ok (df : List Record) (ed : Option String)
    (h : okBound ed = true) : ∃ g, filterEnd df ed = .ok g := by
  cases ed with
  | none => exact ⟨df, rfl⟩
  | some s =>
    by_cases hs : s = ""
    · exact ⟨df, by simp [filterEnd, hs]⟩
    · simp only [okBound, hs, Bool.false_or, decide_eq_true_eq] at h
      cases hp : parseDate s with
      | none => rw [hp] at h; cases h
      | some d =>
        exact ⟨df.filter fun r => Date.leb r.order_date d, by simp [filterEnd, hs, hp]⟩

theorem state_sales_mem_lookup {df : List Record} {row : StateRow}
    (hrow : row ∈ compute_state_sales df) :
    state_abbrev.lookup row.state = some row.state_code := by
  unfold compute_state_sales at hrow
  obtain ⟨s, hs, hf⟩ := List.mem_filterMap.mp hrow
  by_cases hc : (state_abbrev.lookup s).getD "" = ""
  · simp [hc] at hf
  · simp only [ne_eq, hc, not_false_iff, if_true] at hf
    cases hl : state_abbrev.lookup s with
    | none => rw [hl] at hc; simp at hc
    | some code =>
      rw [hl] at hf
      cases hf
      simpa using hl

/-- C1: on the 5-row sample table (sales [500, 50, 300, 1000, 25],
profit [100, 10, -20, 200, 5], 3 distinct orders, 3 distinct
customers), the overview returns total_sales = 1875.0,
total_profit = 295.0, total_orders = 3, total_customers = 3,
avg_order_value = 625.0 and profit_margin = 15.73. -/
theorem C1_overview_sample :
    compute_overview_metrics sampleTable =
      { total_sales := 1875, total_profit := 295, total_orders := 3,
        total_customers := 3, avg_order_value := 625,
        profit_margin := 1573/100 } := by
  with_unfolding_all decide

/-- C2 counterexample: on a one-row table with sales -100 and profit
50, the code returns profit_margin = 0.0 although total_sales = -100 is
not zero and the computed ratio would be -50.0 (the source guards with
`total_sales > 0`, not `total_sales == 0`); and on a one-row table with
sales 0 the code returns avg_order_value = 0.0 although total_orders =
1 is not zero. -/
theorem C2_counterexample :
    (compute_overview_metrics negSalesTable).total_sales = -100 ∧
    (compute_overview_metrics negSalesTable).total_sales ≠ 0 ∧
    (compute_overview_metrics negSalesTable).profit_margin = 0 ∧
    round2 (50 / (-100) * 100) = -50 ∧
    (compute_overview_metrics zeroSalesTable).total_orders = 1 ∧
    (compute_overview_metrics zeroSalesTable).avg_order_value = 0 := by
  with_unfolding_all decide

/-- C2 (amended): avg_order_value is 0.0 when total_orders = 0 and
otherwise total_sales/total_orders rounded to 2 decimals (which may
itself be 0.0); profit_margin is 0.0 when total_sales ≤ 0 and otherwise
total_profit/total_sales·100 rounded to 2 decimals — the zero-guard of
the code is `total_sales > 0`, so a table with negative summed sales
gets profit_margin 0.0, not the computed ratio. -/
theorem C2_overview_guards (T : List Record) :
    ((compute_overview_metrics T).total_orders = 0 →
      (compute_overview_metrics T).avg_order_value = 0) ∧
    (0 < (compute_overview_metrics T).total_orders →
      (compute_overview_metrics T).avg_order_value
        = round2 (sumQ T (fun r => r.sales)
            / ((compute_overview_metrics T).total_orders : ℚ))) ∧
    (sumQ T (fun r => r.sales) ≤ 0 →
      (compute_overview_metrics T).profit_margin = 0) ∧
    (0 < sumQ T (fun r => r.sales) →
      (compute_overview_metrics T).profit_margin
        = round2 (sumQ T (fun r => r.profit) / sumQ T (fun r => r.sales) * 100)) := by
  have ho : (compute_overview_metrics T).total_orders
      = nuniq T (fun r => r.order_id) := rfl
  have ha : (compute_overview_metrics T).avg_order_value
      = if 0 < nuniq T (fun r => r.order_id) then
          round2 (sumQ T (fun r => r.sales) / (nuniq T (fun r => r.order_id) : ℚ))
        else 0 := rfl
  have hm : (compute_overview_metrics T).profit_margin
      = if 0 < sumQ T (fun r => r.sales) then
          round2 (sumQ T (fun r => r.profit) / sumQ T (fun r => r.sales) * 100)
        else 0 := rfl
  refine ⟨?_, ?_, ?_, ?_⟩
  · intro h
    rw [ho] at h
    rw [ha, h]
    simp
  · intro h
    rw [ho] at h
    rw [ha, if_pos h, ho]
  · intro h
    rw [hm, if_neg (not_lt.mpr h)]
  · intro h
    rw [hm, if_pos h]

/-- C2 witness: the guards evaluated on the sample table, where
total_orders = 3 > 0 and summed sales 1875 > 0. -/
theorem C2_overview_guards_witness :
    0 < (compute_overview_metrics sampleTable).total_orders ∧
    0 < sumQ sampleTable (fun r => r.sales) ∧
    (compute_overview_metrics sampleTable).avg_order_value
      = round2 (sumQ sampleTable (fun r => r.sales)
          / ((compute_overview_metrics sampleTable).total_orders : ℚ)) ∧
    (compute_overview_metrics sampleTable).profit_margin
      = round2 (sumQ sampleTable (fun r => r.profit)
          / sumQ sampleTable (fun r => r.sales) * 100) :=
  ⟨by decide, by with_unfolding_all decide,
   (C2_overview_guards sampleTable).2.1 (by decide),
   (C2_overview_guards sampleTable).2.2.2 (by with_unfolding_all decide)⟩

/-- C3 counterexample: the filter-options aggregation is not total on
the empty table — `min()`/`max()` of an empty date column is `NaT` and
`NaT.strftime` raises, modelled here as `none`. -/
theorem C3_counterexample : compute_filter_options [] = none := rfl

/-- C3 (amended): every aggregation except filter options is total on
the empty table, returning a zero-valued record or an empty list;
filter options raises on the empty table (its date formatting fails on
`NaT`) and succeeds on every non-empty table. -/
theorem C3_empty_table_behaviour :
    compute_overview_metrics [] =
      { total_sales := 0, total_profit := 0, total_orders := 0,
        total_customers := 0, avg_order_value := 0, profit_margin := 0 } ∧
    compute_sales_by_category [] = [] ∧
    compute_sales_by_region [] = [] ∧
    compute_sales_trends [] = [] ∧
    compute_profit_analysis [] = [] ∧
    compute_segment_analysis [] = [] ∧
    compute_state_sales [] = [] ∧
    compute_filter_options [] = none ∧
    (∀ T : List Record, T ≠ [] → (compute_filter_options T).isSome = true) := by
  refine ⟨by with_unfolding_all decide, rfl, rfl, rfl, rfl, rfl, rfl, rfl, ?_⟩
  intro T hT
  cases T with
  | nil => exact absurd rfl hT
  | cons r rs => rfl

/-- C3 witness: filter options succeed on the non-empty sample table. -/
theorem C3_empty_table_behaviour_witness :
    sampleTable ≠ [] ∧ (compute_filter_options sampleTable).isSome = true :=
  ⟨by decide,
   C3_empty_table_behaviour.2.2.2.2.2.2.2.2 sampleTable (by decide)⟩

/-- C4 counterexample: the filter operation is not total for arbitrary
date-bound strings — a malformed start date ("not-a-date"), a
calendar-invalid one ("2023-02-31") and one outside the `pd.Timestamp`
range ("9999-01-01") all make `pd.to_datetime` raise, modelled as
`.error`. -/
theorem C4_counterexample :
    apply_filters sampleTable { start_date := some "not-a-date" } =
      .error ("Unknown datetime string format: not-a-date") ∧
    apply_filters sampleTable { start_date := some "2023-02-31" } =
      .error ("Unknown datetime string format: 2023-02-31") ∧
    apply_filters sampleTable { start_date := some "9999-01-01" } =
      .error ("Unknown datetime string format: 9999-01-01") :=
  ⟨rfl, rfl, rfl⟩

/-- C4 (amended): the filter operation is pure and never fails whenever
each present date bound is the empty string or a parseable date string
— well-formed, calendar-valid and within the `pd.Timestamp` range
(inclusion lists of any content never fail); absent bounds and
absent/empty inclusion sets are no-ops. A present, non-empty date bound
that is malformed, calendar-invalid or out of the timestamp range
raises. -/
theorem C4_apply_total (df : List Record) (spec : FilterSpec)
    (hs : okBound spec.start_date = true) (he : okBound spec.end_date = true) :
    exceptIsOk (apply_filters df spec) = true ∧
    apply_filters df {} = .ok df ∧
    apply_filters df { start_date := some "", end_date := some "",
                       regions := some [], segments := some [],
                       categories := some [] } = .ok df := by
  refine ⟨?_, rfl, rfl⟩
  obtain ⟨g1, h1⟩ := filterStart_ok df spec.start_date hs
  obtain ⟨g2, h2⟩ := filterEnd_ok g1 spec.end_date he
  unfold apply_filters
  simp only [h1, h2, exceptIsOk]

/-- C4 witness: a parseable start bound and an empty end bound on the
sample table. -/
theorem C4_apply_total_witness :
    okBound (some "2023-01-01") = true ∧ okBound (some "") = true ∧
    exceptIsOk (apply_filters sampleTable
      { start_date := some "2023-01-01", end_date := some "" }) = true :=
  ⟨by decide, by decide,
   (C4_apply_total sampleTable
     { start_date := some "2023-01-01", end_date := some "" }
     (by decide) (by decide)).1⟩

/-- C5: a record of the table is in the filtered result exactly when
its order date (not ship date) lies within the present inclusive
bounds, and for each of region/segment/category its value is a member
of the inclusion set whenever that set is non-empty (empty or absent
sets pass unconditionally) — all predicates conjunctive. Stated for
every successful application of the filter. -/
theorem C5_filter_membership (df out : List Record) (spec : FilterSpec)
    (r : Record) (h : apply_filters df spec = .ok out) (hr : r ∈ df) :
    r ∈ out ↔
      (passesStart (parseBound spec.start_date) r = true ∧
       passesEnd (parseBound spec.end_date) r = true ∧
       passesSet spec.regions r.region = true ∧
       passesSet spec.segments r.segment = true ∧
       passesSet spec.categories r.category = true) := by
  unfold apply_filters at h
  cases h1 : filterStart df spec.start_date with
  | error e => simp only [h1] at h; exact Except.noConfusion h
  | ok f1 =>
    simp only [h1] at h
    cases h2 : filterEnd f1 spec.end_date with
    | error e => simp only [h2] at h; exact Except.noConfusion h
    | ok f2 =>
      simp only [h2, Except.ok.injEq] at h
      subst h
      rw [mem_filterCategories, mem_filterSegments, mem_filterRegions,
        mem_filterEnd f1 f2 spec.end_date h2 r,
        mem_filterStart df f1 spec.start_date h1 r]
      simp [hr, and_assoc]

/-- C5 witness: filtering the sample table by region ["East"] keeps
exactly the two East rows; membership of row 1 is equivalent to the
declarative predicate. -/
theorem C5_filter_membership_witness :
    apply_filters sampleTable { regions := some ["East"] } =
      .ok [sampleRow1, sampleRow2] ∧
    sampleRow1 ∈ sampleTable ∧
    (sampleRow1 ∈ [sampleRow1, sampleRow2] ↔
      (passesStart (parseBound none) sampleRow1 = true ∧
       passesEnd (parseBound none) sampleRow1 = true ∧
       passesSet (some ["East"]) sampleRow1.region = true ∧
       passesSet none sampleRow1.segment = true ∧
       passesSet none sampleRow1.category = true)) :=
  ⟨by with_unfolding_all decide, by with_unfolding_all decide,
   C5_filter_membership sampleTable [sampleRow1, sampleRow2]
     { regions := some ["East"] } sampleRow1
     (by with_unfolding_all decide) (by with_unfolding_all decide)⟩

/-- C6 counterexample: on a two-category table with per-group sales
0.004 each, the sum of the rounded per-group sales is 0.00 while the
overview's rounded total_sales is 0.01 — rounding breaks the claimed
equality of rounded figures. -/
theorem C6_counterexample :
    ((compute_sales_by_category tinyRoundTable).map (fun row => row.sales)).sum = 0 ∧
    (compute_overview_metrics tinyRoundTable).total_sales = 1/100 ∧
    ((compute_sales_by_category tinyRoundTable).map (fun row => row.sales)).sum
      ≠ (compute_overview_metrics tinyRoundTable).total_sales := by
  with_unfolding_all decide

/-- C6 (amended): the category grouping partitions the filtered table
exactly — the group row counts sum to the table's row count, and the
unrounded per-group sales sums add up to the unrounded total sales, so
the overview's rounded total_sales equals the rounding of that sum
(the per-row equality of rounded figures does not survive rounding). -/
theorem C6_partition (T : List Record) :
    (((groupKeys T (fun r => r.category)).map
        (fun c => (T.filter fun r => r.category == c).length)).sum = T.length) ∧
    (((groupKeys T (fun r => r.category)).map
        (fun c => sumQ (T.filter fun r => r.category == c) (fun r => r.sales))).sum
      = sumQ T (fun r => r.sales)) ∧
    ((compute_overview_metrics T).total_sales
      = round2 (((groupKeys T (fun r => r.category)).map
          (fun c => sumQ (T.filter fun r => r.category == c) (fun r => r.sales))).sum)) := by
  have hnd := groupKeys_nodup T (fun r => r.category)
  have hmem : ∀ r ∈ T, r.category ∈ groupKeys T (fun r => r.category) :=
    fun r hr => mem_groupKeys T (fun r => r.category) r hr
  have hsales := sum_filter_partition (fun r => r.category) (fun r => r.sales)
    (groupKeys T (fun r => r.category)) hnd T hmem
  have hcount := sum_filter_partition (fun r => r.category) (fun _ => (1 : ℕ))
    (groupKeys T (fun r => r.category)) hnd T hmem
  refine ⟨?_, hsales, ?_⟩
  · simp only [length_eq_sum_map_one]
    exact hcount
  · have hts : (compute_overview_metrics T).total_sales
        = round2 (sumQ T (fun r => r.sales)) := rfl
    rw [hts]
    exact congrArg round2 hsales.symm

/-- C7: a payload that parses but lacks required columns fails
validation with a DataValidationError whose message renders the
missing-column list, and that list contains every required column
absent from the payload. -/
theorem C7_validation_missing (cols : List String)
    (h : missingColumns cols ≠ []) :
    validate_schema cols = .error (renderMissing (missingColumns cols)) ∧
    ∀ c ∈ REQUIRED_COLUMNS, c ∉ cols → c ∈ missingColumns cols := by
  constructor
  · unfold validate_schema
    rw [if_neg h]
  · intro c hcReq hcNot
    unfold missingColumns
    refine List.mem_filter.mpr ⟨hcReq, ?_⟩
    simp [hcNot]

/-- C7 witness: the sample payload without its "Profit" column fails
validation, and "Profit" is among the missing columns the message
names. -/
theorem C7_validation_missing_witness :
    missingColumns columnsNoProfit ≠ [] ∧
    validate_schema columnsNoProfit
      = .error (renderMissing (missingColumns columnsNoProfit)) ∧
    "Profit" ∈ missingColumns columnsNoProfit :=
  ⟨by decide,
   (C7_validation_missing columnsNoProfit (by decide)).1,
   (C7_validation_missing columnsNoProfit (by decide)).2 "Profit"
     (by decide) (by decide)⟩

/-- C8: a forced refresh whose ingestion fails leaves the cached table
and the last-refresh timestamp unchanged and propagates the ingestion
error to the caller, for every cache state. -/
theorem C8_refresh_failure_keeps_state (st : RepoState) (now : Nat) (e : String) :
    get_dataframe (.error e) true st now = (.error e, st) := rfl

/-- C9: the state lookup has 51 entries (50 states plus the District of
Columbia); every emitted state row's name maps to its emitted postal
code, and a group whose state name has no lookup entry never appears in
the output (it is silently omitted, never an error). -/
theorem C9_state_lookup :
    state_abbrev.length = 51 ∧
    (∀ df : List Record, ∀ row ∈ compute_state_sales df,
      state_abbrev.lookup row.state = some row.state_code) ∧
    (∀ df : List Record, ∀ s : String, state_abbrev.lookup s = none →
      ∀ row ∈ compute_state_sales df, row.state ≠ s) := by
  refine ⟨rfl, fun df row hrow => state_sales_mem_lookup hrow, ?_⟩
  intro df s hnone row hrow heq
  have hl := state_sales_mem_lookup hrow
  rw [heq, hnone] at hl
  cases hl

/-- C9 witness: "Ontario" has no lookup entry and is omitted from the
output on a table containing it, while the "California" group is
emitted with code "CA". -/
theorem C9_state_lookup_witness :
    state_abbrev.lookup "Ontario" = none ∧
    californiaRow ∈ compute_state_sales ontarioTable ∧
    state_abbrev.lookup californiaRow.state = some californiaRow.state_code ∧
    californiaRow.state ≠ "Ontario" :=
  ⟨by decide, by with_unfolding_all decide,
   C9_state_lookup.2.1 ontarioTable californiaRow (by with_unfolding_all decide),
   C9_state_lookup.2.2 ontarioTable "Ontario" (by decide) californiaRow
     (by with_unfolding_all decide)⟩

/-- C10: passing the empty string as a date bound behaves identically
to passing no bound at all — the stage is skipped by truthiness, no
date parsing is attempted, and every row passes that predicate. -/
theorem C10_empty_string_bound (df : List Record) (spec : FilterSpec) :
    apply_filters df { spec with start_date := some "" } =
      apply_filters df { spec with start_date := none } ∧
    apply_filters df { spec with end_date := some "" } =
      apply_filters df { spec with end_date := none } := by
  constructor <;> simp [apply_filters, filterStart, filterEnd]
